import Mathlib

/-
Verification of the express-slonik transaction middleware
(src/src/index.ts, class RequestTransactionContext) against its
natural-language specification.

The embedding models:
  * the per-request transaction Scope: the TransactionContext EventEmitter
    with its once-listeners for the commit and rollback events, the response
    finish and error listeners, and the write-once promise held open by
    begin() (index.ts lines 136-172);
  * the begin() handler including the pool guard, the retrying
    pool.transaction collaborator, and the finally-block cleanup
    (index.ts lines 124-186);
  * the commit() and catchError() handlers (index.ts lines 191-217);
  * the singleton registry getOrCreateContext and createMiddleware
    (index.ts lines 101-115 and 239-247).
-/

namespace ExpressSlonik

/-- PostgreSQL isolation levels offered by the module (index.ts lines 34-57). -/
inductive IsolationLevel
  | readCommitted
  | repeatableRead
  | serializable
deriving DecidableEq, Repr

/-- The exported IsolationLevels record, keeping the source's names. -/
def IsolationLevels.READ_COMMITTED : IsolationLevel := IsolationLevel.readCommitted

def IsolationLevels.REPEATABLE_READ : IsolationLevel := IsolationLevel.repeatableRead

def IsolationLevels.SERIALIZABLE : IsolationLevel := IsolationLevel.serializable

/-- An application/storage error carried through rollback signals. The
`isSerializationFailure` flag models whether the slonik pool classifies the
error as a retryable serialization conflict. -/
structure AppError where
  code : Nat
  isSerializationFailure : Bool
deriving DecidableEq, Repr

/-- JS promise resolution state. `resolveOnce` and `rejectOnce` are write-once:
settling an already settled promise is a no-op, exactly as for the promise
constructed at index.ts line 153. -/
inductive PromiseState
  | pending
  | resolved
  | rejected (e : AppError)
deriving DecidableEq, Repr

def PromiseState.resolveOnce : PromiseState → PromiseState
  | PromiseState.pending => PromiseState.resolved
  | s => s

def PromiseState.rejectOnce (e : AppError) : PromiseState → PromiseState
  | PromiseState.pending => PromiseState.rejected e
  | s => s

/-- State of one transaction Scope as wired by begin() (index.ts lines
139-172): `commitArmed` / `rollbackArmed` say whether the once-listeners
registered at lines 156-168 are still attached; `finishAttached` /
`errorAttached` say whether the response listeners registered at line 150 are
still attached; `promise` is the promise awaited at line 153; `storedError`
is the TransactionContext.error field set by rollback (line 96). -/
structure Scope where
  commitArmed : Bool
  rollbackArmed : Bool
  finishAttached : Bool
  errorAttached : Bool
  promise : PromiseState
  storedError : Option AppError
deriving DecidableEq, Repr

/-- The Scope right after begin() has wired all listeners and before any
signal: everything attached, promise pending. -/
def initScope : Scope :=
  { commitArmed := true, rollbackArmed := true, finishAttached := true,
    errorAttached := true, promise := PromiseState.pending, storedError := none }

/-- emit("commit"): the once-listener at lines 157-162, if still attached,
detaches itself, removes both response listeners (line 160) and resolves the
promise. -/
def emitCommit (s : Scope) : Scope :=
  if s.commitArmed then
    { s with commitArmed := false, finishAttached := false, errorAttached := false,
             promise := s.promise.resolveOnce }
  else s

/-- emit("rollback", e): the once-listener at lines 163-168, if still
attached, detaches itself, removes both response listeners (line 166) and
rejects the promise with e. -/
def emitRollback (e : AppError) (s : Scope) : Scope :=
  if s.rollbackArmed then
    { s with rollbackArmed := false, finishAttached := false, errorAttached := false,
             promise := s.promise.rejectOnce e }
  else s

/-- TransactionContext.commit (index.ts lines 91-93). -/
def ctxCommit (s : Scope) : Scope := emitCommit s

/-- TransactionContext.rollback (index.ts lines 95-98): records the error,
then emits the rollback event. -/
def ctxRollback (e : AppError) (s : Scope) : Scope :=
  emitRollback e { s with storedError := some e }

/-- Events that can reach a live Scope: an explicit commit signal (the
commit() middleware), an explicit rollback signal (the catchError()
middleware), the response finish event and the response error event. -/
inductive Signal
  | commit
  | rollback (e : AppError)
  | finish
  | resErr
deriving DecidableEq, Repr

/-- Deliver one event to the Scope. The response listeners follow index.ts
lines 144-150: BOTH `autoCommit` and `autoRollback` are bound to
`transactionContext.commit` (line 145 binds commit, not rollback), so the
response error event, while its listener is attached, also runs commit. -/
def Scope.step (s : Scope) : Signal → Scope
  | Signal.commit => ctxCommit s
  | Signal.rollback e => ctxRollback e s
  | Signal.finish => if s.finishAttached then ctxCommit s else s
  | Signal.resErr => if s.errorAttached then ctxCommit s else s

/-- Deliver a sequence of events in order. -/
def Scope.run : Scope → List Signal → Scope
  | s, [] => s
  | s, sig :: rest => Scope.run (Scope.step s sig) rest

/-- What one middleware chain does while the Scope is open: the signals it
delivers (via commit(), catchError() and the response terminal events) and
the queries it issues through req.transaction. -/
structure ChainBehavior where
  sigs : List Signal
  queries : List Nat
deriving Repr

/-- Outcome of the per-attempt callback passed to pool.transaction (index.ts
lines 136-172), as seen by the pool wrapper: `none` means the promise never
settled (the chain was abandoned and the callback stays suspended); ok means
it returned normally (instructing COMMIT); error means it rejected
(instructing ROLLBACK). -/
def chainResult (cb : ChainBehavior) : Option (Except AppError Unit) :=
  match (Scope.run initScope cb.sigs).promise with
  | PromiseState.pending => none
  | PromiseState.resolved => some (Except.ok ())
  | PromiseState.rejected e => some (Except.error e)

/-- The per-request mutable context fields the middleware touches
(req.transaction and req.transactionId). -/
structure ReqState where
  transaction : Option Nat
  transactionId : Option Nat
deriving DecidableEq, Repr

/-- The controller's transactionContext map (index.ts line 103), keyed by
transaction id. -/
abbrev CtxMap := List (Nat × Scope)

def mapLookup : CtxMap → Nat → Option Scope
  | [], _ => none
  | (k, v) :: rest, k' => if k = k' then some v else mapLookup rest k'

/-- Remove a key (the `delete` at index.ts line 183). -/
def mapDelete (m : CtxMap) (k : Nat) : CtxMap :=
  m.filter (fun p => p.1 != k)

/-- Set a key (the assignment at index.ts line 139); JS object keys are
unique, modelled up to mapLookup. -/
def mapInsert (m : CtxMap) (k : Nat) (v : Scope) : CtxMap :=
  (k, v) :: mapDelete m k

/-- Statements issued inside one transaction attempt. -/
inductive Stmt
  | setTransactionIsolationLevel (lvl : IsolationLevel)
  | query (q : Nat)
deriving DecidableEq, Repr

/-- Result of one run of the callback at index.ts lines 136-172. -/
structure AttemptOutcome where
  result : Option (Except AppError Unit)
  req : ReqState
  ctxMap : CtxMap
  stmts : List Stmt
deriving Repr

/-- One run of begin()'s callback: issues SET TRANSACTION ISOLATION LEVEL
first (line 137), registers a fresh Scope in the map under txId (line 139),
publishes the handle and id into the request context (lines 141-142), then
the chain runs (line 171 hands off control) delivering `cb.sigs` to the
Scope; the callback's return is the settled promise (lines 153-172). -/
def attemptCallback (lvl : IsolationLevel) (txId : Nat) (handle : Nat)
    (cb : ChainBehavior) (req : ReqState) (m : CtxMap) : AttemptOutcome :=
  let m1 := mapInsert m txId initScope
  let req1 : ReqState := { req with transaction := some handle, transactionId := some txId }
  let scope := Scope.run initScope cb.sigs
  let m2 := mapInsert m1 txId scope
  { result := chainResult cb
    req := req1
    ctxMap := m2
    stmts := Stmt.setTransactionIsolationLevel lvl :: cb.queries.map Stmt.query }

/-- Which way the pool finalized each attempt's transaction. -/
inductive TxFinal
  | committed
  | rolledBack (e : AppError)
deriving DecidableEq, Repr

/-- Result of the pool.transaction collaborator call. -/
structure PoolTxResult where
  result : Option (Except AppError Unit)
  req : ReqState
  ctxMap : CtxMap
  txFinals : List TxFinal
deriving Repr

/-- Modelled collaborator (slonik): pool.transaction(callback, retryLimit)
runs the callback, COMMITs when it returns normally and ROLLs BACK when it
rejects; on a serialization-failure rejection it retries the whole callback,
up to `fuel` more attempts. `i` indexes attempts so the environment can vary
per attempt; `finals` accumulates how each attempt's transaction ended. -/
def poolTransactionGo (lvl : IsolationLevel) (txId : Nat) (env : Nat → ChainBehavior) :
    Nat → Nat → ReqState → CtxMap → List TxFinal → PoolTxResult
  | 0, i, req, m, finals =>
    let a := attemptCallback lvl txId i (env i) req m
    match a.result with
    | none => { result := none, req := a.req, ctxMap := a.ctxMap, txFinals := finals }
    | some (Except.ok _) =>
      { result := some (Except.ok ()), req := a.req, ctxMap := a.ctxMap,
        txFinals := finals ++ [TxFinal.committed] }
    | some (Except.error e) =>
      { result := some (Except.error e), req := a.req, ctxMap := a.ctxMap,
        txFinals := finals ++ [TxFinal.rolledBack e] }
  | fuel + 1, i, req, m, finals =>
    let a := attemptCallback lvl txId i (env i) req m
    match a.result with
    | none => { result := none, req := a.req, ctxMap := a.ctxMap, txFinals := finals }
    | some (Except.ok _) =>
      { result := some (Except.ok ()), req := a.req, ctxMap := a.ctxMap,
        txFinals := finals ++ [TxFinal.committed] }
    | some (Except.error e) =>
      if e.isSerializationFailure then
        poolTransactionGo lvl txId env fuel (i + 1) a.req a.ctxMap
          (finals ++ [TxFinal.rolledBack e])
      else
        { result := some (Except.error e), req := a.req, ctxMap := a.ctxMap,
          txFinals := finals ++ [TxFinal.rolledBack e] }

/-- Errors the middleware reports through the chain continuation. -/
inductive MWError
  | undefinedPool
  | transactionOutOfBounds
  | app (e : AppError)
deriving DecidableEq, Repr

/-- A call to the chain continuation: plain next() or next(error). -/
inductive NextCall
  | cont
  | err (e : MWError)
deriving DecidableEq, Repr

/-- Final observation of one run of the begin() handler. `nextCalls` records
the terminal continuation calls the handler itself makes (lines 130, 176 and
178; the line-171 hand-off that runs the chain is modelled by `env`).
`hung` marks the abandoned-chain case where the promise never settles and the
finally block is never reached. -/
structure BeginResult where
  nextCalls : List NextCall
  req : ReqState
  ctxMap : CtxMap
  txFinals : List TxFinal
  hung : Bool
deriving Repr

/-- The handler returned by begin(isolationLevel, retryLimit) (index.ts
lines 124-186): pool guard (lines 129-131), pool.transaction with retry
(lines 136-173), next() on resolution / next(error) on rejection (lines
176-178), and the finally cleanup (lines 179-184) deleting req.transaction,
req.transactionId and the map entry. -/
def beginHandler (poolPresent : Bool) (txId : Nat) (env : Nat → ChainBehavior)
    (req : ReqState) (m : CtxMap) (isolationLevel : IsolationLevel)
    (retryLimit : Nat) : BeginResult :=
  if poolPresent = false then
    { nextCalls := [NextCall.err MWError.undefinedPool], req := req, ctxMap := m,
      txFinals := [], hung := false }
  else
    let r := poolTransactionGo isolationLevel txId env retryLimit 0 req m []
    match r.result with
    | none =>
      { nextCalls := [], req := r.req, ctxMap := r.ctxMap,
        txFinals := r.txFinals, hung := true }
    | some (Except.ok _) =>
      { nextCalls := [NextCall.cont],
        req := { transaction := none, transactionId := none },
        ctxMap := mapDelete r.ctxMap txId, txFinals := r.txFinals, hung := false }
    | some (Except.error e) =>
      { nextCalls := [NextCall.err (MWError.app e)],
        req := { transaction := none, transactionId := none },
        ctxMap := mapDelete r.ctxMap txId, txFinals := r.txFinals, hung := false }

/-- The source's default arguments: begin() with both arguments omitted is
begin(IsolationLevels.READ_COMMITTED, 5) (index.ts lines 124-127). -/
def beginHandlerDefault (poolPresent : Bool) (txId : Nat) (env : Nat → ChainBehavior)
    (req : ReqState) (m : CtxMap) : BeginResult :=
  beginHandler poolPresent txId env req m IsolationLevels.READ_COMMITTED 5

/-- The handler returned by commit() (index.ts lines 191-201): with no
transactionId on the request it reports TransactionOutOfBoundsError through
next; otherwise it signals commit on the Scope stored under the request's id
and calls next() no further. `none` models the JS crash of reading a missing
map entry. -/
def commitHandler (req : ReqState) (m : CtxMap) : Option (List NextCall × CtxMap) :=
  match req.transactionId with
  | none => some ([NextCall.err MWError.transactionOutOfBounds], m)
  | some txId =>
    match mapLookup m txId with
    | none => none
    | some scope => some ([], mapInsert m txId (ctxCommit scope))

/-- The error handler returned by catchError() (index.ts lines 206-217):
with a transactionId on the request it signals rollback with the error and
does not call next; otherwise it forwards the error to the next error
handler. -/
def catchErrorHandler (e : AppError) (req : ReqState) (m : CtxMap) :
    Option (List NextCall × CtxMap) :=
  match req.transactionId with
  | some txId =>
    match mapLookup m txId with
    | none => none
    | some scope => some ([], mapInsert m txId (ctxRollback e scope))
  | none => some ([NextCall.err (MWError.app e)], m)

/-- A controller (RequestTransactionContext instance) is identified by the
pool it was constructed with (index.ts line 105). -/
structure Controller where
  pool : Nat
deriving DecidableEq, Repr

/-- The static singleton field (index.ts line 102). -/
structure RegistryState where
  inst : Option Controller
deriving DecidableEq, Repr

/-- getOrCreateContext (index.ts lines 109-115): constructs the instance on
first use, thereafter returns the stored instance unchanged. -/
def getOrCreateContext (pool : Nat) (s : RegistryState) : Controller × RegistryState :=
  match s.inst with
  | none => ({ pool := pool }, { inst := some { pool := pool } })
  | some c => (c, s)

/-- A pool-like argument to createMiddleware; `hasPoolMethods` models the
structural isDatabasePool check (index.ts lines 228-233). -/
structure PoolLike where
  id : Nat
  hasPoolMethods : Bool
deriving DecidableEq, Repr

def isDatabasePool (p : PoolLike) : Bool := p.hasPoolMethods

/-- createMiddleware (index.ts lines 239-247): TypeError on a non-pool
argument, else getOrCreateContext. -/
def createMiddleware (p : PoolLike) (s : RegistryState) :
    Except Unit (Controller × RegistryState) :=
  if isDatabasePool p = false then Except.error ()
  else Except.ok (getOrCreateContext p.id s)

/-! ## Basic lemmas about the Scope event machine -/

theorem resolveOnce_of_ne_pending (p : PromiseState) (h : p ≠ PromiseState.pending) :
    p.resolveOnce = p := by
  cases p <;> simp_all [PromiseState.resolveOnce]

theorem rejectOnce_of_ne_pending (e : AppError) (p : PromiseState)
    (h : p ≠ PromiseState.pending) : p.rejectOnce e = p := by
  cases p <;> simp_all [PromiseState.rejectOnce]

theorem step_promise_settled (s : Scope) (sig : Signal)
    (h : s.promise ≠ PromiseState.pending) :
    (Scope.step s sig).promise = s.promise := by
  cases sig <;>
    simp only [Scope.step, ctxCommit, ctxRollback, emitCommit, emitRollback] <;>
    repeat' split <;>
    simp_all [resolveOnce_of_ne_pending _ h, rejectOnce_of_ne_pending _ _ h]

theorem run_nil (s : Scope) : Scope.run s [] = s := rfl

theorem run_cons (s : Scope) (sig : Signal) (rest : List Signal) :
    Scope.run s (sig :: rest) = Scope.run (Scope.step s sig) rest := rfl

theorem run_promise_settled (l : List Signal) (s : Scope)
    (h : s.promise ≠ PromiseState.pending) :
    (Scope.run s l).promise = s.promise := by
  induction l generalizing s with
  | nil => rfl
  | cons sig rest ih =>
    rw [run_cons]
    have h1 := step_promise_settled s sig h
    rw [ih (Scope.step s sig) (by rw [h1]; exact h), h1]

theorem step_init_commit :
    Scope.step initScope Signal.commit =
      { commitArmed := false, rollbackArmed := true, finishAttached := false,
        errorAttached := false, promise := PromiseState.resolved, storedError := none } := rfl

theorem step_init_rollback (e : AppError) :
    Scope.step initScope (Signal.rollback e) =
      { commitArmed := true, rollbackArmed := false, finishAttached := false,
        errorAttached := false, promise := PromiseState.rejected e,
        storedError := some e } := rfl

theorem step_detached (s : Scope) (sig : Signal) (hf : s.finishAttached = false)
    (he : s.errorAttached = false) :
    (Scope.step s sig).finishAttached = false ∧ (Scope.step s sig).errorAttached = false := by
  cases sig <;>
    simp only [Scope.step, ctxCommit, ctxRollback, emitCommit, emitRollback] <;>
    repeat' split <;>
    simp_all

theorem run_detached (l : List Signal) (s : Scope) (hf : s.finishAttached = false)
    (he : s.errorAttached = false) :
    (Scope.run s l).finishAttached = false ∧ (Scope.run s l).errorAttached = false := by
  induction l generalizing s with
  | nil => exact ⟨hf, he⟩
  | cons sig rest ih =>
    rw [run_cons]
    obtain ⟨h1, h2⟩ := step_detached s sig hf he
    exact ih _ h1 h2

theorem step_finish_detached (s : Scope) (hf : s.finishAttached = false) :
    Scope.step s Signal.finish = s := by
  simp [Scope.step, hf]

theorem step_resErr_detached (s : Scope) (he : s.errorAttached = false) :
    Scope.step s Signal.resErr = s := by
  simp [Scope.step, he]

/-! ## Claim theorems -/

/-- Claim C1: the claim states that the response error terminal event on a
request with a Pending Scope triggers the rollback signal, never commit, so
no error path leaves the transaction committed. The code does the opposite:
autoRollback is bound to TransactionContext.commit (index.ts line 145), so
the response error event resolves the Scope and the pool COMMITs the
transaction. This theorem evaluates the embedded code at that failing
input. -/
theorem c1_response_error_event_commits :
    (Scope.step initScope Signal.resErr).promise = PromiseState.resolved
    ∧ (beginHandler true 0 (fun _ => { sigs := [Signal.resErr], queries := [] })
        { transaction := none, transactionId := none } []
        IsolationLevels.READ_COMMITTED 5).txFinals = [TxFinal.committed] :=
  ⟨rfl, rfl⟩

/-- Claim C2: for every Scope and every sequence of signals after the first
terminal signal, the first terminal signal determines the outcome (resolve
on commit, reject with the error on rollback) and every subsequent signal is
a no-op on that outcome: the Scope's terminal state is write-once. -/
theorem c2_first_terminal_signal_wins (e : AppError) (rest : List Signal) :
    (Scope.run (Scope.step initScope Signal.commit) rest).promise = PromiseState.resolved
    ∧ (Scope.run (Scope.step initScope (Signal.rollback e)) rest).promise
        = PromiseState.rejected e := by
  constructor
  · rw [run_promise_settled rest _ (by simp [step_init_commit]), step_init_commit]
  · rw [run_promise_settled rest _ (by simp [step_init_rollback]), step_init_rollback]

/-- Claim C9: the registry is a process-wide singleton that ignores the pool
argument after first creation: getOrCreateContext on a second, distinct pool
returns the same controller, which is still bound to the first pool. -/
theorem c9_registry_singleton_ignores_second_pool (p1 p2 : Nat) :
    (getOrCreateContext p2 (getOrCreateContext p1 { inst := none }).2).1
        = (getOrCreateContext p1 { inst := none }).1
    ∧ ((getOrCreateContext p2 (getOrCreateContext p1 { inst := none }).2).1).pool = p1 :=
  ⟨rfl, rfl⟩

/-- Claim C10: once a Scope is resolved by its first terminal signal, the
response finish and error listeners registered for it are detached and stay
detached across any later signals, so later response completion or error
events never signal the already resolved Scope. -/
theorem c10_response_listeners_detached_after_resolution (e : AppError)
    (rest : List Signal) :
    (Scope.step (Scope.run (Scope.step initScope Signal.commit) rest) Signal.finish
        = Scope.run (Scope.step initScope Signal.commit) rest
      ∧ Scope.step (Scope.run (Scope.step initScope Signal.commit) rest) Signal.resErr
        = Scope.run (Scope.step initScope Signal.commit) rest)
    ∧ (Scope.step (Scope.run (Scope.step initScope (Signal.rollback e)) rest) Signal.finish
        = Scope.run (Scope.step initScope (Signal.rollback e)) rest
      ∧ Scope.step (Scope.run (Scope.step initScope (Signal.rollback e)) rest) Signal.resErr
        = Scope.run (Scope.step initScope (Signal.rollback e)) rest) := by
  have hc := run_detached rest (Scope.step initScope Signal.commit)
    (by rw [step_init_commit]) (by rw [step_init_commit])
  have hr := run_detached rest (Scope.step initScope (Signal.rollback e))
    (by rw [step_init_rollback]) (by rw [step_init_rollback])
  exact ⟨⟨step_finish_detached _ hc.1, step_resErr_detached _ hc.2⟩,
    ⟨step_finish_detached _ hr.1, step_resErr_detached _ hr.2⟩⟩

theorem mapLookup_mapDelete (m : CtxMap) (k : Nat) :
    mapLookup (mapDelete m k) k = none := by
  induction m with
  | nil => rfl
  | cons p rest ih =>
    obtain ⟨a, v⟩ := p
    by_cases hp : a = k
    · simpa [mapDelete, List.filter_cons, hp] using ih
    · simpa [mapDelete, List.filter_cons, hp, mapLookup] using ih

/-- Claim C4: the handler returned by commit() reports a
TransactionOutOfBoundsError to the chain's error path exactly when no live
Scope exists for the request (req.transactionId unset); otherwise it signals
commit on that request's Scope and makes no continuation call of its own. -/
theorem c4_commit_out_of_bounds_iff_no_scope (req : ReqState) (m : CtxMap) :
    (req.transactionId = none →
        commitHandler req m = some ([NextCall.err MWError.transactionOutOfBounds], m))
    ∧ (∀ txId scope, req.transactionId = some txId → mapLookup m txId = some scope →
        commitHandler req m = some ([], mapInsert m txId (ctxCommit scope))) := by
  constructor
  · intro h
    simp [commitHandler, h]
  · intro txId scope h hl
    simp [commitHandler, h, hl]

theorem c4_commit_out_of_bounds_iff_no_scope_witness :
    commitHandler { transaction := none, transactionId := none } []
        = some ([NextCall.err MWError.transactionOutOfBounds], [])
    ∧ commitHandler { transaction := some 7, transactionId := some 3 } [(3, initScope)]
        = some ([], mapInsert [(3, initScope)] 3 (ctxCommit initScope)) :=
  ⟨(c4_commit_out_of_bounds_iff_no_scope
      { transaction := none, transactionId := none } []).1 rfl,
    (c4_commit_out_of_bounds_iff_no_scope
      { transaction := some 7, transactionId := some 3 } [(3, initScope)]).2
      3 initScope rfl rfl⟩

/-- Claim C5: for every request and every error, the error handler returned
by catchError() signals rollback with that error and makes no continuation
call when a live Scope exists for the request, and forwards the error
untouched to the next error handler when none exists. -/
theorem c5_catch_error_rollback_or_forward (e : AppError) (req : ReqState) (m : CtxMap) :
    (req.transactionId = none →
        catchErrorHandler e req m = some ([NextCall.err (MWError.app e)], m))
    ∧ (∀ txId scope, req.transactionId = some txId → mapLookup m txId = some scope →
        catchErrorHandler e req m = some ([], mapInsert m txId (ctxRollback e scope))) := by
  constructor
  · intro h
    simp [catchErrorHandler, h]
  · intro txId scope h hl
    simp [catchErrorHandler, h, hl]

theorem c5_catch_error_rollback_or_forward_witness :
    catchErrorHandler { code := 9, isSerializationFailure := false }
        { transaction := none, transactionId := none } []
        = some ([NextCall.err (MWError.app { code := 9, isSerializationFailure := false })], [])
    ∧ catchErrorHandler { code := 9, isSerializationFailure := false }
        { transaction := some 7, transactionId := some 3 } [(3, initScope)]
        = some ([], mapInsert [(3, initScope)] 3
            (ctxRollback { code := 9, isSerializationFailure := false } initScope)) :=
  ⟨(c5_catch_error_rollback_or_forward { code := 9, isSerializationFailure := false }
      { transaction := none, transactionId := none } []).1 rfl,
    (c5_catch_error_rollback_or_forward { code := 9, isSerializationFailure := false }
      { transaction := some 7, transactionId := some 3 } [(3, initScope)]).2
      3 initScope rfl rfl⟩

/-- Claim C7: for every outcome of begin()'s handler that completes (commit,
rollback, or a propagated error, i.e. every non-hung run), the request
returns to the NoTransaction state: req.transaction and req.transactionId
are cleared and the Scope's entry is removed from the controller's
per-request transaction-context map. -/
theorem c7_cleanup_restores_no_transaction (lvl : IsolationLevel) (n txId : Nat)
    (env : Nat → ChainBehavior) (req : ReqState) (m : CtxMap)
    (h : (beginHandler true txId env req m lvl n).hung = false) :
    (beginHandler true txId env req m lvl n).req
        = { transaction := none, transactionId := none }
    ∧ mapLookup (beginHandler true txId env req m lvl n).ctxMap txId = none := by
  unfold beginHandler at h ⊢
  cases hr : (poolTransactionGo lvl txId env n 0 req m []).result with
  | none => simp [hr] at h
  | some v =>
    cases v with
    | ok u => simp [hr, mapLookup_mapDelete]
    | error e => simp [hr, mapLookup_mapDelete]

theorem c7_cleanup_restores_no_transaction_witness :
    (beginHandler true 0 (fun _ => { sigs := [Signal.commit], queries := [] })
        { transaction := none, transactionId := none } [(1, initScope)]
        IsolationLevel.readCommitted 5).req
        = { transaction := none, transactionId := none }
    ∧ mapLookup (beginHandler true 0 (fun _ => { sigs := [Signal.commit], queries := [] })
        { transaction := none, transactionId := none } [(1, initScope)]
        IsolationLevel.readCommitted 5).ctxMap 0 = none :=
  c7_cleanup_restores_no_transaction IsolationLevel.readCommitted 5 0
    (fun _ => { sigs := [Signal.commit], queries := [] })
    { transaction := none, transactionId := none } [(1, initScope)] rfl

/-- Claim C8: getOrCreateContext is idempotent per pool: repeated calls with
the same pool (and hence repeated createMiddleware calls on a valid pool,
which reduce to getOrCreateContext) return the identical controller and
leave the registry unchanged. -/
theorem c8_get_or_create_context_idempotent (pool : Nat) (p : PoolLike)
    (s : RegistryState) (hp : isDatabasePool p = true) :
    (getOrCreateContext pool (getOrCreateContext pool s).2).1
        = (getOrCreateContext pool s).1
    ∧ (getOrCreateContext pool (getOrCreateContext pool s).2).2
        = (getOrCreateContext pool s).2
    ∧ createMiddleware p s = Except.ok (getOrCreateContext p.id s) := by
  refine ⟨?_, ?_, ?_⟩
  · cases hs : s.inst <;> simp [getOrCreateContext, hs]
  · cases hs : s.inst <;> simp [getOrCreateContext, hs]
  · simp [createMiddleware, hp]

theorem c8_get_or_create_context_idempotent_witness :
    (getOrCreateContext 5 (getOrCreateContext 5 { inst := none }).2).1
        = (getOrCreateContext 5 { inst := none }).1
    ∧ (getOrCreateContext 5 (getOrCreateContext 5 { inst := none }).2).2
        = (getOrCreateContext 5 { inst := none }).2
    ∧ createMiddleware { id := 5, hasPoolMethods := true } { inst := none }
        = Except.ok (getOrCreateContext 5 { inst := none }) :=
  c8_get_or_create_context_idempotent 5 { id := 5, hasPoolMethods := true }
    { inst := none } rfl

/-! ## Lemmas about the retrying pool collaborator -/

theorem attemptCallback_result (lvl : IsolationLevel) (txId h : Nat)
    (cb : ChainBehavior) (req : ReqState) (m : CtxMap) :
    (attemptCallback lvl txId h cb req m).result = chainResult cb := rfl

theorem run_commit_first_promise (rest : List Signal) :
    (Scope.run initScope (Signal.commit :: rest)).promise = PromiseState.resolved := by
  rw [run_cons, run_promise_settled rest _ (by simp [step_init_commit]), step_init_commit]

theorem run_rollback_first_promise (e : AppError) (rest : List Signal) :
    (Scope.run initScope (Signal.rollback e :: rest)).promise = PromiseState.rejected e := by
  rw [run_cons, run_promise_settled rest _ (by simp [step_init_rollback]), step_init_rollback]

theorem chainResult_commit_first (rest : List Signal) (qs : List Nat) :
    chainResult { sigs := Signal.commit :: rest, queries := qs }
      = some (Except.ok ()) := by
  simp [chainResult, run_commit_first_promise]

theorem chainResult_rollback_first (e : AppError) (rest : List Signal) (qs : List Nat) :
    chainResult { sigs := Signal.rollback e :: rest, queries := qs }
      = some (Except.error e) := by
  simp [chainResult, run_rollback_first_promise]

theorem poolTransactionGo_all_reject (lvl : IsolationLevel) (txId : Nat)
    (env : Nat → ChainBehavior) (e : AppError)
    (hser : e.isSerializationFailure = true)
    (hall : ∀ i, chainResult (env i) = some (Except.error e)) :
    ∀ fuel i req m finals,
      (poolTransactionGo lvl txId env fuel i req m finals).result = some (Except.error e)
      ∧ (poolTransactionGo lvl txId env fuel i req m finals).txFinals
          = finals ++ List.replicate (fuel + 1) (TxFinal.rolledBack e) := by
  intro fuel
  induction fuel with
  | zero =>
    intro i req m finals
    constructor <;> simp [poolTransactionGo, attemptCallback_result, hall]
  | succ n ih =>
    intro i req m finals
    have h2 := ih (i + 1) (attemptCallback lvl txId i (env i) req m).req
      (attemptCallback lvl txId i (env i) req m).ctxMap
      (finals ++ [TxFinal.rolledBack e])
    constructor
    · simp only [poolTransactionGo, attemptCallback_result, hall, hser, if_true]
      exact h2.1
    · simp only [poolTransactionGo, attemptCallback_result, hall, hser, if_true]
      rw [h2.2]
      simp [List.replicate_succ]

theorem poolTransactionGo_retry_until_success (lvl : IsolationLevel) (txId : Nat)
    (env : Nat → ChainBehavior) (e : AppError) (j : Nat)
    (hser : e.isSerializationFailure = true)
    (hlt : ∀ i, i < j → chainResult (env i) = some (Except.error e))
    (hge : ∀ i, j ≤ i → chainResult (env i) = some (Except.ok ())) :
    ∀ fuel i req m finals, j ≤ i + fuel →
      (poolTransactionGo lvl txId env fuel i req m finals).result = some (Except.ok ())
      ∧ (poolTransactionGo lvl txId env fuel i req m finals).txFinals
          = finals ++ List.replicate (j - i) (TxFinal.rolledBack e)
              ++ [TxFinal.committed] := by
  intro fuel
  induction fuel with
  | zero =>
    intro i req m finals hij
    have hj : j ≤ i := by omega
    have h0 : j - i = 0 := by omega
    constructor <;> simp [poolTransactionGo, attemptCallback_result, hge i hj, h0]
  | succ n ih =>
    intro i req m finals hij
    by_cases hj : j ≤ i
    · have h0 : j - i = 0 := by omega
      constructor <;> simp [poolTransactionGo, attemptCallback_result, hge i hj, h0]
    · have hi : i < j := by omega
      have h2 := ih (i + 1) (attemptCallback lvl txId i (env i) req m).req
        (attemptCallback lvl txId i (env i) req m).ctxMap
        (finals ++ [TxFinal.rolledBack e]) (by omega)
      have hrep : j - i = (j - (i + 1)) + 1 := by omega
      constructor
      · simp only [poolTransactionGo, attemptCallback_result, hlt i hi, hser, if_true]
        exact h2.1
      · simp only [poolTransactionGo, attemptCallback_result, hlt i hi, hser, if_true]
        rw [h2.2, hrep]
        simp [List.replicate_succ]

theorem poolTransactionGo_first_reject_no_retry (lvl : IsolationLevel) (txId : Nat)
    (env : Nat → ChainBehavior) (e : AppError)
    (hser : e.isSerializationFailure = false) :
    ∀ fuel i req m finals, chainResult (env i) = some (Except.error e) →
      (poolTransactionGo lvl txId env fuel i req m finals).result = some (Except.error e)
      ∧ (poolTransactionGo lvl txId env fuel i req m finals).txFinals
          = finals ++ [TxFinal.rolledBack e] := by
  intro fuel i req m finals hi
  cases fuel with
  | zero => constructor <;> simp [poolTransactionGo, attemptCallback_result, hi]
  | succ n => constructor <;> simp [poolTransactionGo, attemptCallback_result, hi, hser]

/-- Claim C3: the callback begin() passes to the pool's retrying-transaction
primitive returns normally exactly when the commit signal fires first
(instructing COMMIT) and, for every error, returns that error exactly when
the rollback signal fires first (instructing ROLLBACK): a
non-serialization rollback ends in a single rolled-back attempt with the
error reported to the chain's error path, while a serialization conflict is
retried, succeeding within the retryLimit budget or, on exhaustion after
retryLimit retries, begin() reports the error to the chain's error path. -/
theorem c3_callback_outcome_and_retry (e : AppError) (rest : List Signal) (qs : List Nat)
    (lvl : IsolationLevel) (txId retryLimit j : Nat) (req : ReqState) (m : CtxMap) :
    chainResult { sigs := Signal.commit :: rest, queries := qs } = some (Except.ok ())
    ∧ chainResult { sigs := Signal.rollback e :: rest, queries := qs }
        = some (Except.error e)
    ∧ (e.isSerializationFailure = false →
        (beginHandler true txId
            (fun _ => { sigs := Signal.rollback e :: rest, queries := qs })
            req m lvl retryLimit).nextCalls = [NextCall.err (MWError.app e)]
        ∧ (beginHandler true txId
            (fun _ => { sigs := Signal.rollback e :: rest, queries := qs })
            req m lvl retryLimit).txFinals = [TxFinal.rolledBack e])
    ∧ (e.isSerializationFailure = true →
        (beginHandler true txId
            (fun _ => { sigs := Signal.rollback e :: rest, queries := qs })
            req m lvl retryLimit).nextCalls = [NextCall.err (MWError.app e)]
        ∧ (beginHandler true txId
            (fun _ => { sigs := Signal.rollback e :: rest, queries := qs })
            req m lvl retryLimit).txFinals
          = List.replicate (retryLimit + 1) (TxFinal.rolledBack e))
    ∧ (e.isSerializationFailure = true → j ≤ retryLimit →
        (beginHandler true txId
            (fun k => if k < j then { sigs := Signal.rollback e :: rest, queries := qs }
              else { sigs := Signal.commit :: rest, queries := qs })
            req m lvl retryLimit).nextCalls = [NextCall.cont]
        ∧ (beginHandler true txId
            (fun k => if k < j then { sigs := Signal.rollback e :: rest, queries := qs }
              else { sigs := Signal.commit :: rest, queries := qs })
            req m lvl retryLimit).txFinals
          = List.replicate j (TxFinal.rolledBack e) ++ [TxFinal.committed]) := by
  refine ⟨chainResult_commit_first rest qs, chainResult_rollback_first e rest qs,
    ?_, ?_, ?_⟩
  · intro hser
    have hN := poolTransactionGo_first_reject_no_retry lvl txId
      (fun _ => { sigs := Signal.rollback e :: rest, queries := qs }) e hser
      retryLimit 0 req m [] (chainResult_rollback_first e rest qs)
    constructor
    · unfold beginHandler
      simp [hN.1]
    · unfold beginHandler
      simp [hN.1, hN.2]
  · intro hser
    have hA := poolTransactionGo_all_reject lvl txId
      (fun _ => { sigs := Signal.rollback e :: rest, queries := qs }) e hser
      (fun _ => chainResult_rollback_first e rest qs) retryLimit 0 req m []
    constructor
    · unfold beginHandler
      simp [hA.1]
    · unfold beginHandler
      simp [hA.1, hA.2]
  · intro hser hj
    have hB := poolTransactionGo_retry_until_success lvl txId
      (fun k => if k < j then { sigs := Signal.rollback e :: rest, queries := qs }
        else { sigs := Signal.commit :: rest, queries := qs }) e j hser
      (fun i hi => by simp only [if_pos hi]; exact chainResult_rollback_first e rest qs)
      (fun i hi => by simp only [if_neg (Nat.not_lt.mpr hi)]
                      exact chainResult_commit_first rest qs)
      retryLimit 0 req m [] (by omega)
    constructor
    · unfold beginHandler
      simp [hB.1]
    · unfold beginHandler
      simp [hB.1, hB.2]

theorem c3_callback_outcome_and_retry_witness :
    (beginHandler true 0
        (fun _ =>
          { sigs := [Signal.rollback { code := 2, isSerializationFailure := false }],
            queries := [] })
        { transaction := none, transactionId := none } [] IsolationLevel.readCommitted
        5).txFinals
      = [TxFinal.rolledBack { code := 2, isSerializationFailure := false }]
    ∧ (beginHandler true 0
        (fun _ =>
          { sigs := [Signal.rollback { code := 1, isSerializationFailure := true }],
            queries := [] })
        { transaction := none, transactionId := none } [] IsolationLevel.readCommitted
        5).txFinals
      = List.replicate 6
          (TxFinal.rolledBack { code := 1, isSerializationFailure := true })
    ∧ (beginHandler true 0
        (fun k => if k < 2 then
            { sigs := [Signal.rollback { code := 1, isSerializationFailure := true }],
              queries := [] }
          else { sigs := [Signal.commit], queries := [] })
        { transaction := none, transactionId := none } [] IsolationLevel.readCommitted
        5).txFinals
      = List.replicate 2 (TxFinal.rolledBack { code := 1, isSerializationFailure := true })
          ++ [TxFinal.committed] :=
  ⟨((c3_callback_outcome_and_retry { code := 2, isSerializationFailure := false } [] []
      IsolationLevel.readCommitted 0 5 2 { transaction := none, transactionId := none }
      []).2.2.1 rfl).2,
    ((c3_callback_outcome_and_retry { code := 1, isSerializationFailure := true } [] []
      IsolationLevel.readCommitted 0 5 2 { transaction := none, transactionId := none }
      []).2.2.2.1 rfl).2,
    ((c3_callback_outcome_and_retry { code := 1, isSerializationFailure := true } [] []
      IsolationLevel.readCommitted 0 5 2 { transaction := none, transactionId := none }
      []).2.2.2.2 rfl (by decide)).2⟩

/-- Claim C6: begin() with arguments omitted uses READ_COMMITTED and
retryLimit 5; with no pool it reports UndefinedPoolError to the chain's
error path and opens no transaction (no attempt runs, the context map is
untouched); otherwise it opens the transaction through the pool's retrying
primitive, each attempt issues SET TRANSACTION ISOLATION LEVEL for the
chosen level as its first statement and publishes the live transaction
handle and id into the request context. -/
theorem c6_begin_defaults_guard_isolation_publish (lvl : IsolationLevel)
    (n txId h : Nat) (env : Nat → ChainBehavior) (cb : ChainBehavior)
    (req : ReqState) (m : CtxMap) :
    beginHandlerDefault true txId env req m
        = beginHandler true txId env req m IsolationLevels.READ_COMMITTED 5
    ∧ beginHandler false txId env req m lvl n
        = { nextCalls := [NextCall.err MWError.undefinedPool], req := req, ctxMap := m,
            txFinals := [], hung := false }
    ∧ (attemptCallback lvl txId h cb req m).stmts.head?
        = some (Stmt.setTransactionIsolationLevel lvl)
    ∧ (attemptCallback lvl txId h cb req m).req
        = { transaction := some h, transactionId := some txId }
    ∧ (beginHandler true txId env req m lvl n).txFinals
        = (poolTransactionGo lvl txId env n 0 req m []).txFinals := by
  refine ⟨rfl, by simp [beginHandler], rfl, rfl, ?_⟩
  unfold beginHandler
  cases hr : (poolTransactionGo lvl txId env n 0 req m []).result with
  | none => simp [hr]
  | some v =>
    cases v with
    | ok u => simp [hr]
    | error e2 => simp [hr]

end ExpressSlonik
